import Mathlib

/-!
Shallow embedding of `src/web_server/app.py` (llmweblocal): the `/chat`
conversation-session handler and the `wait_for_ollama` readiness/provisioning
routine, with theorems checking the natural-language specification.

External effects (HTTP requests to the Ollama backend, the wall clock) are
modelled as explicit inputs: the chat backend is a function from the message
history sent to the result of the completion call, and the provisioning world
records the outcome of each backend interaction.  Side-effect-only statements
of the source (`print`, logging, tracebacks) have no observable behaviour and
are not modelled.
-/

namespace LlmWebLocal

/-- A chat message: `{'role': ..., 'content': ...}` dict in the source. -/
structure Message where
  role : String
  content : String
deriving DecidableEq, Repr

/-- `MODEL_NAME = "qwen3:4b"` (app.py line 21). -/
def MODEL_NAME : String := "qwen3:4b"

/-- The initial `conversation_history` seed (app.py line 25), also the value
`/reset` restores (line 239). -/
def seedHistory : List Message :=
  [⟨"system", "You are a helpful assistant."⟩]

/-- The part of the request body the handler reads: `request.json['message']`.
Either the JSON object lacks the key (a `KeyError` is raised) or it holds a
string value. -/
inductive ChatRequest where
  | noMessageKey : ChatRequest
  | message : String → ChatRequest

/-- Result of `client.chat.completions.create(...)` (app.py line 209):
either the call raises (`failure` with the exception text `str(e)`), or it
returns a completion whose `choices` list yields, per choice, the optional
`message.content` string. -/
inductive BackendResult where
  | failure : String → BackendResult
  | success : List (Option String) → BackendResult

/-- The handler response: `jsonify({"response": ...})` with 200,
`jsonify({"error": ...}), 400` or `jsonify({"error": ...}), 500`. -/
inductive ChatOutcome where
  | ok : String → ChatOutcome
  | inputError : String → ChatOutcome
  | serverError : String → ChatOutcome
deriving DecidableEq, Repr

/-- The HTTP status attached to each outcome (app.py lines 198, 224, 232). -/
def statusOf : ChatOutcome → Nat
  | .ok _ => 200
  | .inputError _ => 400
  | .serverError _ => 500

/-- Extraction of the reply from the completion result (app.py lines 216-217):
`chat_completion.choices[0].message.content`.  An exception from the `create`
call propagates; `choices[0]` on an empty list raises an `IndexError`; a
`None` content makes the following `bot_response[:50]` slice raise a
`TypeError`.  The error string is `str(e)` of the raised exception. -/
def extractReply : BackendResult → Except String String
  | .failure e => .error e
  | .success [] => .error "list index out of range"
  | .success (none :: _) => .error "'NoneType' object is not subscriptable"
  | .success (some r :: _) => .ok r

/-- The failure-path recovery (app.py lines 230-231): pop the last history
entry when the history is nonempty and its last entry has role `'user'`. -/
def rollback (hist : List Message) : List Message :=
  match hist.getLast? with
  | some m => if m.role = "user" then hist.dropLast else hist
  | none => hist

/-- The `/chat` handler `chat()` (app.py lines 191-232), as a function of the
request, the backend behaviour, and the current `conversation_history`;
returns the updated history and the HTTP outcome.
* a missing `'message'` key raises `KeyError('message')`, caught by the
  `except` block, whose `str(e)` is `'message'` quoted;
* an empty message returns the 400 error before any mutation;
* otherwise the user message is appended, the whole history is sent to the
  backend, and on success the assistant reply is appended;
* any exception after the append lands in the `except` block: `rollback`
  then a 500 payload `"Internal Server Error: " + str(e)`. -/
def chat (req : ChatRequest) (backend : List Message → BackendResult)
    (hist : List Message) : List Message × ChatOutcome :=
  match req with
  | .noMessageKey =>
      (rollback hist, .serverError "Internal Server Error: 'message'")
  | .message userMessage =>
      if userMessage = "" then
        (hist, .inputError "Empty message")
      else
        match extractReply (backend (hist ++ [⟨"user", userMessage⟩])) with
        | .error e =>
            (rollback (hist ++ [⟨"user", userMessage⟩]),
             .serverError ("Internal Server Error: " ++ e))
        | .ok botResponse =>
            (hist ++ [⟨"user", userMessage⟩] ++ [⟨"assistant", botResponse⟩],
             .ok botResponse)

/-- The `/reset` handler (app.py lines 234-243): replace the history with the
seed, unconditionally. -/
def resetChat (_hist : List Message) : List Message := seedHistory

/-- Run a sequence of `/chat` turns; each turn supplies the message text and
the backend behaviour for that turn.  Returns the final history and the list
of per-turn outcomes. -/
def runChats (turns : List (String × (List Message → BackendResult)))
    (hist : List Message) : List Message × List ChatOutcome :=
  match turns with
  | [] => (hist, [])
  | (m, b) :: rest =>
      let r := chat (.message m) b hist
      let r2 := runChats rest r.1
      (r2.1, r.2 :: r2.2)

/-- The messages appended by a list of successful turns: for each
(userText, reply) pair, one user message then one assistant message. -/
def turnPairs : List (String × String) → List Message
  | [] => []
  | (u, a) :: rest => ⟨"user", u⟩ :: ⟨"assistant", a⟩ :: turnPairs rest

/-- Roles alternate user/assistant in consecutive pairs. -/
def alternating : List Message → Bool
  | [] => true
  | [_] => false
  | u :: a :: rest => u.role == "user" && a.role == "assistant" && alternating rest

/-! ## Readiness prober (app.py lines 37-59) -/

/-- Outcome of one liveness attempt `requests.get(OLLAMA_HOST, timeout=5)`:
a response carrying an HTTP status (then `raise_for_status()` raises for
status ≥ 400, caught by the `RequestException` branch), or one of the
exception classes the loop catches. -/
inductive ProbeAttempt where
  | response : Nat → ProbeAttempt
  | connError : ProbeAttempt
  | timedOut : ProbeAttempt
  | reqError : ProbeAttempt
  | otherError : ProbeAttempt
deriving DecidableEq, Repr

/-- Whether an attempt breaks out of the wait loop: a response for which
`raise_for_status()` does not raise, i.e. status < 400. -/
def probeSuccess : ProbeAttempt → Bool
  | .response s => s < 400
  | _ => false

/-- The `while time.time() - start_time < timeout` liveness loop.  The world
supplies, for each attempt index, the attempt outcome and the duration the
request itself consumed; every failed attempt additionally sleeps 5 seconds
(`time.sleep(5)`).  Returns whether the loop broke out (server alive) and the
elapsed time at exit.  The `else` clause of the `while` (loop condition
exhausted) returns failure. -/
def probeLoop (attempts : Nat → ProbeAttempt × Nat) (timeout : Nat)
    (i elapsed : Nat) : Bool × Nat :=
  if h : elapsed < timeout then
    if probeSuccess (attempts i).1 then
      (true, elapsed + (attempts i).2)
    else
      probeLoop attempts timeout (i + 1) (elapsed + (attempts i).2 + 5)
  else
    (false, elapsed)
termination_by timeout - elapsed
decreasing_by omega

/-- The elapsed time accumulated by the first `k` (all failing) attempts:
request duration plus the 5-second sleep, each. -/
def cumElapsed (attempts : Nat → ProbeAttempt × Nat) : Nat → Nat
  | 0 => 0
  | k + 1 => cumElapsed attempts k + (attempts k).2 + 5

/-! ## Model provisioning (app.py lines 61-182) -/

/-- A model descriptor from the list response; `getattr(model, 'id',
getattr(model, 'name', None))` probes an `id` attribute, falling back to
`name`, then `None`. -/
structure ModelDescr where
  id : Option String
  name : Option String
deriving DecidableEq, Repr

/-- The identifier used in the existence check (app.py lines 97-100, 165-166). -/
def descrIdent (m : ModelDescr) : Option String :=
  m.id.orElse fun _ => m.name

/-- The `.data` payload of a list response: either an actual Python list of
descriptors, or any non-list value (`isinstance(models_data, list)` fails). -/
inductive DataShape where
  | list : List ModelDescr → DataShape
  | notList : DataShape
deriving DecidableEq, Repr

/-- Result of the first `client.models.list()` call (app.py lines 67-90):
the call may raise `APIConnectionError`, raise some other exception, return a
falsy response object, or return a response whose `data` attribute is absent
(`getattr` default `None`) or holds some payload. -/
inductive ListResult where
  | connError : String → ListResult
  | otherError : String → ListResult
  | noneResponse : ListResult
  | response : Option DataShape → ListResult
deriving DecidableEq, Repr

/-- `models_data` after the listing phase (app.py lines 63-90): `None` unless
the call succeeded with a truthy response, in which case it is
`getattr(model_list_response, 'data', None)`. -/
def modelsDataOf : ListResult → Option DataShape
  | .connError _ => none
  | .otherError _ => none
  | .noneResponse => none
  | .response d => d

/-- `model_exists` after the check phase (app.py lines 92-108): true exactly
when `models_data` is a list one of whose descriptors has identifier
`MODEL_NAME`; `None` or a non-list payload leaves it false. -/
def modelExistsIn : Option DataShape → Bool
  | some (.list ms) => ms.any fun m => descrIdent m == some MODEL_NAME
  | some .notList => false
  | none => false

/-- One line of the streaming pull response (app.py lines 130-146): skipped
when empty, skipped (logged) when it fails to decode as JSON, otherwise a
chunk with optional `status` and `error` fields. -/
inductive PullLine where
  | empty : PullLine
  | badJson : PullLine
  | chunk : Option String → Option String → PullLine
deriving DecidableEq, Repr

/-- Result of `requests.post(pull_url, ..., stream=True, timeout=timeout)`
(app.py lines 123-158): one of the caught exception classes, or a response
with an HTTP status (checked by `raise_for_status()`) and a stream of lines. -/
inductive PullResult where
  | timeoutErr : String → PullResult
  | reqError : String → PullResult
  | otherError : String → PullResult
  | stream : Nat → List PullLine → PullResult
deriving DecidableEq, Repr

/-- Consume the pull stream in order (app.py lines 130-146): the first chunk
carrying an `error` field returns it immediately (`return False` in the
source); empty and undecodable lines are skipped; reaching the end of the
stream without an error chunk yields `none`. -/
def consumePull : List PullLine → Option String
  | [] => none
  | .chunk _ (some e) :: _ => some e
  | _ :: rest => consumePull rest

/-- Result of the re-verification `client.models.list().data` (app.py lines
162-174): the call (or attribute access) may raise, else it yields the
`data` payload, possibly `None` or non-list. -/
inductive VerifyResult where
  | error : String → VerifyResult
  | data : Option DataShape → VerifyResult
deriving DecidableEq, Repr

/-- The verification verdict (app.py lines 164-174): true exactly when the
re-listed data is a list containing a descriptor whose identifier is
`MODEL_NAME`; any exception or non-list payload yields false. -/
def verifyVerdict : VerifyResult → Bool
  | .error _ => false
  | .data (some (.list ms)) => ms.any fun m => descrIdent m == some MODEL_NAME
  | .data _ => false

/-- Backend behaviour for the provisioning phase: the outcome of the first
listing, of the pull request, and of the re-verification listing. -/
structure ProvisionWorld where
  firstList : ListResult
  pullResult : PullResult
  verifyList : VerifyResult
deriving Repr

/-- Observable backend interactions issued during provisioning. -/
inductive Event where
  | listCall : Event
  | pullRequest : Nat → Event
  | verifyCall : Event
deriving DecidableEq, Repr

/-- Whether an event trace contains a pull request. -/
def issuedPull (events : List Event) : Bool :=
  events.any fun e => match e with
    | .pullRequest _ => true
    | _ => false

/-- Steps 2-4 of `wait_for_ollama` (app.py lines 61-182), entered once the
liveness loop broke out.  Returns the boolean the function returns and the
trace of backend interactions.  `timeout` is the `timeout` parameter of
`wait_for_ollama`; note the pull request is issued with `timeout=timeout`
(line 124). -/
def provision (w : ProvisionWorld) (timeout : Nat) : Bool × List Event :=
  if modelExistsIn (modelsDataOf w.firstList) then
    (true, [.listCall])
  else
    match w.pullResult with
    | .timeoutErr _ => (false, [.listCall, .pullRequest timeout])
    | .reqError _ => (false, [.listCall, .pullRequest timeout])
    | .otherError _ => (false, [.listCall, .pullRequest timeout])
    | .stream status lines =>
        if 400 ≤ status then
          (false, [.listCall, .pullRequest timeout])
        else
          match consumePull lines with
          | some _ => (false, [.listCall, .pullRequest timeout])
          | none =>
              (verifyVerdict w.verifyList,
               [.listCall, .pullRequest timeout, .verifyCall])

/-- Full world for `wait_for_ollama`: the liveness attempts with their
durations, the wall-clock duration of the listing phase, and the
provisioning backend behaviour. -/
structure OllamaWorld where
  attempts : Nat → ProbeAttempt × Nat
  listDuration : Nat
  prov : ProvisionWorld

/-- `wait_for_ollama(timeout)` (app.py lines 30-182): run the liveness loop;
if it times out return failure, otherwise run the provisioning phases. -/
def waitForOllama (w : OllamaWorld) (timeout : Nat) : Bool × List Event :=
  let alive := probeLoop w.attempts timeout 0 0
  if alive.1 then provision w.prov timeout else (false, [])

/-- Wall-clock time already consumed when the pull request would be issued:
the liveness loop's elapsed time plus the listing phase's duration. -/
def elapsedAtPull (w : OllamaWorld) (timeout : Nat) : Nat :=
  (probeLoop w.attempts timeout 0 0).2 + w.listDuration

/-- Whether the first listing failed or returned an unusable shape (the cases
of app.py lines 79-108 that leave `model_exists = False` without consulting
any descriptor): an `APIConnectionError`, any other exception, a falsy
response object, a response without a `data` attribute, or a non-list
payload. -/
def listingFailed : ListResult → Bool
  | .response (some (.list _)) => false
  | _ => true

/-! ## Concrete inputs used in witnesses and counterexamples -/

/-- A backend whose completion call always raises. -/
def failingBackend : List Message → BackendResult :=
  fun _ => .failure "Connection error."

/-- A backend that always replies "Hello!". -/
def helloBackend : List Message → BackendResult :=
  fun _ => .success [some "Hello!"]

/-- A backend that always replies "Later". -/
def laterBackend : List Message → BackendResult :=
  fun _ => .success [some "Later"]

/-- Liveness attempts that fail once (connection refused, 2s) then succeed
with a 200 response taking 1s. -/
def probeAttemptsW : Nat → ProbeAttempt × Nat :=
  fun i => if i = 0 then (.connError, 2) else (.response 200, 1)

/-- Liveness attempts that always fail. -/
def probeAttemptsFail : Nat → ProbeAttempt × Nat :=
  fun _ => (.connError, 1)

/-- A descriptor for the target model exposing only the fallback `name`
field. -/
def targetByName : ModelDescr := ⟨none, some "qwen3:4b"⟩

/-- Provisioning world: first listing finds nothing, the pull stream emits an
error chunk between two status chunks. -/
def provErrChunkW : ProvisionWorld :=
  { firstList := .response (some (.list []))
    pullResult := .stream 200
      [.chunk (some "pulling manifest") none,
       .chunk none (some "pull model manifest: file does not exist"),
       .chunk (some "verifying sha256 digest") none]
    verifyList := .data (some (.list [targetByName])) }

/-- Provisioning world: first listing already contains the target model. -/
def provPresentW : ProvisionWorld :=
  { firstList := .response (some (.list [targetByName]))
    pullResult := .reqError "404 Client Error"
    verifyList := .error "unreached" }

/-- Provisioning world: the listing raises a connection error and the pull
also fails. -/
def provListFailW : ProvisionWorld :=
  { firstList := .connError "Connection error."
    pullResult := .timeoutErr "read timed out"
    verifyList := .data none }

/-- Provisioning world: listing finds nothing, the pull stream completes
cleanly, and re-verification finds the model. -/
def provVerifyW : ProvisionWorld :=
  { firstList := .response (some .notList)
    pullResult := .stream 200 [.chunk (some "pulling manifest") none, .empty, .badJson, .chunk (some "success") none]
    verifyList := .data (some (.list [targetByName])) }

/-- Full world for the pull-timeout counterexample: the probe fails once
(costing 2s + a 5s sleep) and then succeeds after 1s more, listing takes 3s,
and provisioning reaches the pull step. -/
def ollamaW9 : OllamaWorld :=
  { attempts := probeAttemptsW
    listDuration := 3
    prov := { firstList := .response (some (.list []))
              pullResult := .stream 200 []
              verifyList := .data (some (.list [])) } }

/-! ## Helper lemmas -/

/-- Popping the rollback target right after a user append restores the
original history: the appended entry is last and has role `'user'`. -/
lemma rollback_append_user (hist : List Message) (m : String) :
    rollback (hist ++ [⟨"user", m⟩]) = hist := by
  unfold rollback
  rw [List.getLast?_concat]
  simp [List.dropLast_concat]

/-- A history whose last entry is not a user message is left untouched by the
failure-path recovery. -/
lemma rollback_of_last_not_user (hist : List Message)
    (h : ∀ m, hist.getLast? = some m → m.role ≠ "user") :
    rollback hist = hist := by
  unfold rollback
  cases hl : hist.getLast? with
  | none => rfl
  | some m =>
      show (if m.role = "user" then hist.dropLast else hist) = hist
      rw [if_neg (h m hl)]

/-- A successful turn appends exactly the user message and the assistant
reply, in that order. -/
lemma chat_ok_appends (m : String) (b : List Message → BackendResult)
    (hist : List Message) (r : String)
    (hok : (chat (.message m) b hist).2 = .ok r) :
    (chat (.message m) b hist).1 = hist ++ [⟨"user", m⟩, ⟨"assistant", r⟩] := by
  by_cases hm : m = ""
  · simp [chat, hm] at hok
  · simp only [chat] at hok ⊢
    rw [if_neg hm] at hok ⊢
    cases he : extractReply (b (hist ++ [⟨"user", m⟩])) with
    | error e => rw [he] at hok; simp at hok
    | ok r' =>
        rw [he] at hok
        simp at hok
        subst hok
        simp

/-- Each turn contributes exactly one outcome. -/
lemma runChats_snd_length (turns : List (String × (List Message → BackendResult)))
    (hist : List Message) : (runChats turns hist).2.length = turns.length := by
  induction turns generalizing hist with
  | nil => rfl
  | cons t rest ih => simpa [runChats] using ih _

/-- After a run in which every outcome is a successful reply, the final
history is the initial one followed by the user/assistant pairs. -/
lemma runChats_ok_history (turns : List (String × (List Message → BackendResult)))
    (hist : List Message) (replies : List String)
    (hok : (runChats turns hist).2 = replies.map ChatOutcome.ok) :
    (runChats turns hist).1 = hist ++ turnPairs ((turns.map Prod.fst).zip replies) := by
  induction turns generalizing hist replies with
  | nil =>
      cases replies with
      | nil => simp [runChats, turnPairs]
      | cons r rs => simp [runChats] at hok
  | cons t rest ih =>
      obtain ⟨m, b⟩ := t
      cases replies with
      | nil => simp [runChats] at hok
      | cons r rs =>
          simp only [runChats, List.map_cons, Prod.mk.injEq] at hok ⊢
          obtain ⟨h1, h2⟩ := List.cons.injEq .. ▸ hok
          have hh := chat_ok_appends m b hist r h1
          rw [hh] at h2 ⊢
          rw [ih _ _ h2]
          simp [turnPairs, List.zip_cons_cons, List.zip]

/-- `turnPairs` yields two messages per pair. -/
lemma turnPairs_length (ps : List (String × String)) :
    (turnPairs ps).length = 2 * ps.length := by
  induction ps with
  | nil => rfl
  | cons p rest ih => simp [turnPairs, ih]; ring

/-- `turnPairs` alternates user/assistant roles. -/
lemma turnPairs_alternating (ps : List (String × String)) :
    alternating (turnPairs ps) = true := by
  induction ps with
  | nil => rfl
  | cons p rest ih => simp [turnPairs, alternating, ih]

/-- The first error chunk aborts the scan, whatever follows it. -/
lemma consumePull_append_error (pre post : List PullLine) (st : Option String)
    (e : String) (hpre : consumePull pre = none) :
    consumePull (pre ++ .chunk st (some e) :: post) = some e := by
  induction pre with
  | nil => rfl
  | cons l rest ih =>
      cases l with
      | empty => exact ih hpre
      | badJson => exact ih hpre
      | chunk s err =>
          cases err with
          | none => exact ih hpre
          | some e' => exact Option.noConfusion hpre

/-- A failed or unusable listing leaves `model_exists` false. -/
lemma modelExists_of_listingFailed (lr : ListResult)
    (hf : listingFailed lr = true) :
    modelExistsIn (modelsDataOf lr) = false := by
  cases lr with
  | connError e => rfl
  | otherError e => rfl
  | noneResponse => rfl
  | response d =>
      match d with
      | none => rfl
      | some .notList => rfl
      | some (.list ms) => exact absurd hf (by simp [listingFailed])

/-- Every pull request recorded by `provision` carries the `timeout`
argument of `wait_for_ollama` itself. -/
lemma provision_pull_timeout (w : ProvisionWorld) (timeout pt : Nat)
    (hp : Event.pullRequest pt ∈ (provision w timeout).2) : pt = timeout := by
  unfold provision at hp
  split at hp
  · simp at hp
  · split at hp
    · simp at hp
      exact hp
    · simp at hp
      exact hp
    · simp at hp
      exact hp
    · split at hp
      · simp at hp
        exact hp
      · split at hp
        · simp at hp
          exact hp
        · simp at hp
          exact hp

/-- A failing attempt below the deadline sleeps 5 units and retries. -/
lemma probeLoop_step_fail (attempts : Nat → ProbeAttempt × Nat)
    (timeout i e : Nat) (he : e < timeout)
    (hf : probeSuccess (attempts i).1 = false) :
    probeLoop attempts timeout i e =
      probeLoop attempts timeout (i + 1) (e + (attempts i).2 + 5) := by
  rw [probeLoop]
  rw [dif_pos he, if_neg (by simp [hf])]

/-- A successful attempt below the deadline exits the loop at once. -/
lemma probeLoop_step_success (attempts : Nat → ProbeAttempt × Nat)
    (timeout i e : Nat) (he : e < timeout)
    (hs : probeSuccess (attempts i).1 = true) :
    probeLoop attempts timeout i e = (true, e + (attempts i).2) := by
  rw [probeLoop]
  rw [dif_pos he, if_pos hs]

/-- Once the elapsed time reaches the deadline the loop reports failure. -/
lemma probeLoop_deadline (attempts : Nat → ProbeAttempt × Nat)
    (timeout i e : Nat) (he : timeout ≤ e) :
    probeLoop attempts timeout i e = (false, e) := by
  rw [probeLoop]
  rw [dif_neg (by omega)]

/-- `cumElapsed` is monotone in the number of attempts. -/
lemma cumElapsed_mono (attempts : Nat → ProbeAttempt × Nat) (i k : Nat)
    (h : i ≤ k) : cumElapsed attempts i ≤ cumElapsed attempts k := by
  induction k with
  | zero =>
      have hi : i = 0 := by omega
      subst hi
      exact le_refl _
  | succ k ih =>
      rcases Nat.lt_or_ge i (k + 1) with hl | hg
      · exact le_trans (ih (by omega)) (by simp [cumElapsed]; omega)
      · have hi : i = k + 1 := by omega
        subst hi
        exact le_refl _

/-- If the first `k` attempts fail, the `k`-th succeeds, and the elapsed time
before it is still under the deadline, the loop exits successfully with the
accumulated elapsed time. -/
lemma probeLoop_first_success (attempts : Nat → ProbeAttempt × Nat)
    (timeout k : Nat)
    (hfail : ∀ j, j < k → probeSuccess (attempts j).1 = false)
    (hsucc : probeSuccess (attempts k).1 = true)
    (hlt : cumElapsed attempts k < timeout) :
    probeLoop attempts timeout 0 0 =
      (true, cumElapsed attempts k + (attempts k).2) := by
  suffices h : ∀ n i, i ≤ k → k - i = n →
      probeLoop attempts timeout i (cumElapsed attempts i) =
        (true, cumElapsed attempts k + (attempts k).2) by
    simpa [cumElapsed] using h k 0 (Nat.zero_le k) (by omega)
  intro n
  induction n with
  | zero =>
      intro i hi hd
      have hik : i = k := by omega
      subst hik
      exact probeLoop_step_success attempts timeout i _ hlt hsucc
  | succ n ih =>
      intro i hi hd
      have hik : i < k := by omega
      have hei : cumElapsed attempts i < timeout :=
        lt_of_le_of_lt (cumElapsed_mono attempts i k (by omega)) hlt
      rw [probeLoop_step_fail attempts timeout i _ hei (hfail i hik)]
      have hnext : cumElapsed attempts i + (attempts i).2 + 5 =
          cumElapsed attempts (i + 1) := by simp [cumElapsed]
      rw [hnext]
      exact ih (i + 1) (by omega) (by omega)

/-- If no attempt ever succeeds, the loop reports failure. -/
lemma probeLoop_all_fail (attempts : Nat → ProbeAttempt × Nat) (timeout : Nat)
    (hfail : ∀ j, probeSuccess (attempts j).1 = false) :
    ∀ i e, (probeLoop attempts timeout i e).1 = false := by
  suffices h : ∀ n i e, timeout - e ≤ n → (probeLoop attempts timeout i e).1 = false by
    intro i e
    exact h timeout i e (by omega)
  intro n
  induction n with
  | zero =>
      intro i e hle
      rw [probeLoop_deadline attempts timeout i e (by omega)]
  | succ n ih =>
      intro i e hle
      rcases Nat.lt_or_ge e timeout with hl | hg
      · rw [probeLoop_step_fail attempts timeout i e hl (hfail i)]
        exact ih (i + 1) _ (by omega)
      · rw [probeLoop_deadline attempts timeout i e hg]

/-! ## Claim theorems: conversation session -/

/-- C1: when the backend chat-completion call fails or its response is
malformed after the user message has been appended (including failures while
extracting the reply), the `/chat` handler restores the conversation history
to its pre-turn value and returns a 500 error payload carrying the underlying
error's description. -/
theorem chat_failure_restores_history_and_reports
    (hist : List Message) (msg : String)
    (backend : List Message → BackendResult) (e : String)
    (hmsg : msg ≠ "")
    (herr : extractReply (backend (hist ++ [⟨"user", msg⟩])) = .error e) :
    chat (.message msg) backend hist =
      (hist, .serverError ("Internal Server Error: " ++ e)) ∧
    statusOf (chat (.message msg) backend hist).2 = 500 := by
  have hmain : chat (.message msg) backend hist =
      (hist, .serverError ("Internal Server Error: " ++ e)) := by
    simp only [chat]
    rw [if_neg hmsg, herr, rollback_append_user]
  exact ⟨hmain, by rw [hmain]; rfl⟩

/-- Witness for C1 at a concrete failing turn. -/
theorem chat_failure_restores_history_and_reports_witness :
    chat (.message "Hi") failingBackend seedHistory =
      (seedHistory, .serverError ("Internal Server Error: " ++ "Connection error.")) ∧
    statusOf (chat (.message "Hi") failingBackend seedHistory).2 = 500 :=
  chat_failure_restores_history_and_reports seedHistory "Hi" failingBackend
    "Connection error." (by decide) rfl

/-- C2: a sequence of successful `/chat` turns appends, per turn, exactly one
user message followed by one assistant message whose content equals the
returned reply; the final history length is the seed length plus `2*n`, and
the appended roles alternate user/assistant. -/
theorem chat_success_run_shape
    (turns : List (String × (List Message → BackendResult)))
    (hist : List Message) (replies : List String)
    (hok : (runChats turns hist).2 = replies.map ChatOutcome.ok) :
    (runChats turns hist).1 = hist ++ turnPairs ((turns.map Prod.fst).zip replies) ∧
    (runChats turns hist).1.length = hist.length + 2 * turns.length ∧
    alternating (turnPairs ((turns.map Prod.fst).zip replies)) = true := by
  have hh := runChats_ok_history turns hist replies hok
  have hlen : replies.length = turns.length := by
    have hl := runChats_snd_length turns hist
    rw [hok] at hl
    simpa using hl
  refine ⟨hh, ?_, turnPairs_alternating _⟩
  rw [hh, List.length_append, turnPairs_length, List.length_zip,
    List.length_map, hlen, Nat.min_self]

/-- Witness for C2: two successful turns from the seed history. -/
theorem chat_success_run_shape_witness :
    (runChats [("Hi", helloBackend), ("Bye", laterBackend)] seedHistory).1 =
      seedHistory ++ turnPairs [("Hi", "Hello!"), ("Bye", "Later")] ∧
    (runChats [("Hi", helloBackend), ("Bye", laterBackend)] seedHistory).1.length =
      seedHistory.length + 2 * 2 ∧
    alternating (turnPairs [("Hi", "Hello!"), ("Bye", "Later")]) = true :=
  chat_success_run_shape [("Hi", helloBackend), ("Bye", laterBackend)]
    seedHistory ["Hello!", "Later"] rfl

/-- C8: an empty `/chat` message yields the 400 input error and the history
is returned unchanged: the rejection precedes any append. -/
theorem chat_empty_message_rejected
    (backend : List Message → BackendResult) (hist : List Message) :
    chat (.message "") backend hist = (hist, .inputError "Empty message") ∧
    statusOf (chat (.message "") backend hist).2 = 400 :=
  ⟨rfl, rfl⟩

/-- C10: a request body lacking the `'message'` key raises `KeyError`, which
the handler reports as a 500 turn failure (not the 400 input error); the
history is unchanged because the rollback pops only when the last entry has
role `'user'`. -/
theorem chat_missing_key_is_500_history_unchanged
    (backend : List Message → BackendResult) (hist : List Message)
    (h : ∀ m, hist.getLast? = some m → m.role ≠ "user") :
    chat .noMessageKey backend hist =
      (hist, .serverError "Internal Server Error: 'message'") ∧
    statusOf (chat .noMessageKey backend hist).2 = 500 := by
  have hmain : chat .noMessageKey backend hist =
      (hist, .serverError "Internal Server Error: 'message'") := by
    simp only [chat]
    rw [rollback_of_last_not_user hist h]
  exact ⟨hmain, by rw [hmain]; rfl⟩

/-- Witness for C10 at the seed history. -/
theorem chat_missing_key_is_500_history_unchanged_witness :
    chat .noMessageKey failingBackend seedHistory =
      (seedHistory, .serverError "Internal Server Error: 'message'") ∧
    statusOf (chat .noMessageKey failingBackend seedHistory).2 = 500 :=
  chat_missing_key_is_500_history_unchanged failingBackend seedHistory
    (by intro m hm; simp [seedHistory, List.getLast?] at hm; subst hm; decide)

/-! ## Claim theorems: readiness and provisioning -/

/-- C3: a pull-stream chunk carrying an `error` field makes provisioning
return false immediately: the result does not depend on the chunks after it
(the trailing part of the stream is universally quantified and absent from
the conclusion) and no verification call is issued. -/
theorem provision_error_chunk_aborts
    (w : ProvisionWorld) (timeout status : Nat) (pre post : List PullLine)
    (st : Option String) (e : String)
    (hnf : modelExistsIn (modelsDataOf w.firstList) = false)
    (hstream : w.pullResult = .stream status (pre ++ .chunk st (some e) :: post))
    (hok : status < 400)
    (hpre : consumePull pre = none) :
    provision w timeout = (false, [.listCall, .pullRequest timeout]) ∧
    Event.verifyCall ∉ (provision w timeout).2 := by
  have hmain : provision w timeout = (false, [.listCall, .pullRequest timeout]) := by
    unfold provision
    rw [hnf, hstream]
    simp only [Bool.false_eq_true, if_false]
    rw [if_neg (by omega), consumePull_append_error pre post st e hpre]
  refine ⟨hmain, ?_⟩
  rw [hmain]
  simp

/-- Witness for C3: an error chunk framed by status chunks aborts the pull. -/
theorem provision_error_chunk_aborts_witness :
    provision provErrChunkW 600 = (false, [.listCall, .pullRequest 600]) ∧
    Event.verifyCall ∉ (provision provErrChunkW 600).2 :=
  provision_error_chunk_aborts provErrChunkW 600 200
    [.chunk (some "pulling manifest") none]
    [.chunk (some "verifying sha256 digest") none]
    none "pull model manifest: file does not exist" rfl rfl (by decide) rfl

/-- C4: a first listing containing a descriptor whose identifier (primary
`id` field, else fallback `name` field) equals the target model makes
provisioning return true with no pull request issued. -/
theorem provision_model_present_no_pull
    (w : ProvisionWorld) (timeout : Nat) (ms : List ModelDescr)
    (hl : w.firstList = .response (some (.list ms)))
    (hm : ∃ m ∈ ms, descrIdent m = some MODEL_NAME) :
    provision w timeout = (true, [.listCall]) ∧
    issuedPull (provision w timeout).2 = false := by
  have hex : modelExistsIn (modelsDataOf w.firstList) = true := by
    rw [hl]
    simp only [modelsDataOf, modelExistsIn, List.any_eq_true]
    obtain ⟨m, hmem, hid⟩ := hm
    exact ⟨m, hmem, by simp [hid]⟩
  have hmain : provision w timeout = (true, [.listCall]) := by
    unfold provision
    rw [hex]
    simp
  exact ⟨hmain, by rw [hmain]; rfl⟩

/-- Witness for C4: the target model present under its fallback `name`
field. -/
theorem provision_model_present_no_pull_witness :
    provision provPresentW 600 = (true, [.listCall]) ∧
    issuedPull (provision provPresentW 600).2 = false :=
  provision_model_present_no_pull provPresentW 600 [targetByName] rfl
    (by decide)

/-- C5: every listing failure (connection error, other exception, falsy
response, missing `data` field, non-list payload) leaves `model_exists`
false and provisioning proceeds to issue the pull request rather than
aborting. -/
theorem provision_list_failure_proceeds_to_pull
    (w : ProvisionWorld) (timeout : Nat)
    (hf : listingFailed w.firstList = true) :
    modelExistsIn (modelsDataOf w.firstList) = false ∧
    issuedPull (provision w timeout).2 = true ∧
    ∃ b rest, provision w timeout = (b, .listCall :: .pullRequest timeout :: rest) := by
  have hnf := modelExists_of_listingFailed w.firstList hf
  have hshape : ∃ b rest,
      provision w timeout = (b, .listCall :: .pullRequest timeout :: rest) := by
    cases hp : w.pullResult with
    | timeoutErr e => exact ⟨false, [], by simp [provision, hnf, hp]⟩
    | reqError e => exact ⟨false, [], by simp [provision, hnf, hp]⟩
    | otherError e => exact ⟨false, [], by simp [provision, hnf, hp]⟩
    | stream status lines =>
        by_cases hs : 400 ≤ status
        · exact ⟨false, [], by simp [provision, hnf, hp, hs]⟩
        · cases hc : consumePull lines with
          | some e => exact ⟨false, [], by simp [provision, hnf, hp, hs, hc]⟩
          | none =>
              exact ⟨verifyVerdict w.verifyList, [.verifyCall],
                by simp [provision, hnf, hp, hs, hc]⟩
  refine ⟨hnf, ?_, hshape⟩
  obtain ⟨b, rest, hsh⟩ := hshape
  rw [hsh]
  simp [issuedPull]

/-- Witness for C5: a connection error during listing, followed by a pull
attempt that times out. -/
theorem provision_list_failure_proceeds_to_pull_witness :
    modelExistsIn (modelsDataOf provListFailW.firstList) = false ∧
    issuedPull (provision provListFailW 600).2 = true ∧
    ∃ b rest, provision provListFailW 600 = (b, .listCall :: .pullRequest 600 :: rest) :=
  provision_list_failure_proceeds_to_pull provListFailW 600 rfl

/-- C6: when the pull stream ends without an error chunk, provisioning
re-issues the listing and re-runs the identifier check: the result is the
verification verdict, which is true exactly when the re-listed data holds a
matching descriptor and false when the re-verification call raises. -/
theorem provision_verify_after_clean_pull
    (w : ProvisionWorld) (timeout status : Nat) (lines : List PullLine)
    (hnf : modelExistsIn (modelsDataOf w.firstList) = false)
    (hstream : w.pullResult = .stream status lines)
    (hok : status < 400)
    (hclean : consumePull lines = none) :
    provision w timeout =
      (verifyVerdict w.verifyList, [.listCall, .pullRequest timeout, .verifyCall]) ∧
    (∀ ms, w.verifyList = .data (some (.list ms)) →
      ((provision w timeout).1 = true ↔ ∃ m ∈ ms, descrIdent m = some MODEL_NAME)) ∧
    (∀ e, w.verifyList = .error e → (provision w timeout).1 = false) := by
  have hmain : provision w timeout =
      (verifyVerdict w.verifyList, [.listCall, .pullRequest timeout, .verifyCall]) := by
    unfold provision
    rw [hnf, hstream]
    simp only [Bool.false_eq_true, if_false]
    rw [if_neg (by omega), hclean]
  refine ⟨hmain, ?_, ?_⟩
  · intro ms hv
    rw [hmain]
    simp only [hv, verifyVerdict, List.any_eq_true, beq_iff_eq]
  · intro e hv
    rw [hmain]
    simp [hv, verifyVerdict]

/-- Witness for C6: a clean pull stream (with skipped empty and undecodable
lines) followed by a verification that finds the model. -/
theorem provision_verify_after_clean_pull_witness :
    provision provVerifyW 600 =
      (verifyVerdict provVerifyW.verifyList, [.listCall, .pullRequest 600, .verifyCall]) ∧
    (∀ ms, provVerifyW.verifyList = .data (some (.list ms)) →
      ((provision provVerifyW 600).1 = true ↔ ∃ m ∈ ms, descrIdent m = some MODEL_NAME)) ∧
    (∀ e, provVerifyW.verifyList = .error e → (provision provVerifyW 600).1 = false) :=
  provision_verify_after_clean_pull provVerifyW 600 200
    [.chunk (some "pulling manifest") none, .empty, .badJson, .chunk (some "success") none]
    rfl rfl (by decide) rfl

/-- C7: the liveness prober sleeps a fixed 5-unit interval after every failed
attempt and retries; it exits successfully on the first attempt whose
response passes `raise_for_status`, and reports failure once the elapsed
time reaches the timeout, in particular whenever no attempt ever succeeds. -/
theorem probe_retry_until_success_or_timeout
    (attempts : Nat → ProbeAttempt × Nat) (timeout : Nat) :
    (∀ i e, e < timeout → probeSuccess (attempts i).1 = false →
      probeLoop attempts timeout i e =
        probeLoop attempts timeout (i + 1) (e + (attempts i).2 + 5)) ∧
    (∀ i e, e < timeout → probeSuccess (attempts i).1 = true →
      probeLoop attempts timeout i e = (true, e + (attempts i).2)) ∧
    (∀ i e, timeout ≤ e → probeLoop attempts timeout i e = (false, e)) ∧
    (∀ k, (∀ j, j < k → probeSuccess (attempts j).1 = false) →
      probeSuccess (attempts k).1 = true → cumElapsed attempts k < timeout →
      probeLoop attempts timeout 0 0 =
        (true, cumElapsed attempts k + (attempts k).2)) ∧
    ((∀ j, probeSuccess (attempts j).1 = false) →
      ∀ i e, (probeLoop attempts timeout i e).1 = false) :=
  ⟨fun i e he hf => probeLoop_step_fail attempts timeout i e he hf,
   fun i e he hs => probeLoop_step_success attempts timeout i e he hs,
   fun i e he => probeLoop_deadline attempts timeout i e he,
   fun k hfail hsucc hlt => probeLoop_first_success attempts timeout k hfail hsucc hlt,
   fun hfail => probeLoop_all_fail attempts timeout hfail⟩

/-- Witness for C7: a probe sequence failing once then succeeding, and an
always-failing probe sequence. -/
theorem probe_retry_until_success_or_timeout_witness :
    probeLoop probeAttemptsW 20 0 0 = probeLoop probeAttemptsW 20 1 7 ∧
    probeLoop probeAttemptsW 20 1 7 = (true, 8) ∧
    probeLoop probeAttemptsW 20 9 25 = (false, 25) ∧
    probeLoop probeAttemptsW 20 0 0 = (true, 8) ∧
    (probeLoop probeAttemptsFail 20 3 4).1 = false :=
  ⟨(probe_retry_until_success_or_timeout probeAttemptsW 20).1 0 0
      (by decide) (by decide),
   (probe_retry_until_success_or_timeout probeAttemptsW 20).2.1 1 7
      (by decide) (by decide),
   (probe_retry_until_success_or_timeout probeAttemptsW 20).2.2.1 9 25
      (by decide),
   (probe_retry_until_success_or_timeout probeAttemptsW 20).2.2.2.1 1
      (fun j hj => by
        have hj0 : j = 0 := by omega
        subst hj0
        rfl)
      (by decide) (by decide),
   (probe_retry_until_success_or_timeout probeAttemptsFail 20).2.2.2.2
      (fun j => rfl) 3 4⟩

/-- C9 (amended): the timeout passed to the streaming pull request is the
full overall readiness timeout, not reduced by the time consumed by the
liveness-probe and listing phases. -/
theorem waitForOllama_pull_timeout_full
    (w : OllamaWorld) (timeout pt : Nat)
    (hp : Event.pullRequest pt ∈ (waitForOllama w timeout).2) :
    pt = timeout := by
  unfold waitForOllama at hp
  by_cases hb : (probeLoop w.attempts timeout 0 0).1 = true
  · rw [if_pos hb] at hp
    exact provision_pull_timeout w.prov timeout pt hp
  · rw [if_neg hb] at hp
    simp at hp

/-- The probe in the counterexample world exits after one failure (2s + 5s
sleep) and one success (1s), at elapsed time 8. -/
lemma probeLoop_ollamaW9 : probeLoop ollamaW9.attempts 600 0 0 = (true, 8) := by
  have h0 : probeLoop probeAttemptsW 600 0 0 = probeLoop probeAttemptsW 600 1 7 :=
    probeLoop_step_fail probeAttemptsW 600 0 0 (by decide) (by decide)
  have h1 : probeLoop probeAttemptsW 600 1 7 = (true, 8) :=
    probeLoop_step_success probeAttemptsW 600 1 7 (by decide) (by decide)
  exact h0.trans h1

/-- In the counterexample world, startup runs the provisioning phase. -/
lemma waitForOllama_ollamaW9 :
    waitForOllama ollamaW9 600 = provision ollamaW9.prov 600 := by
  unfold waitForOllama
  simp only [probeLoop_ollamaW9]
  simp

/-- Witness for C9 (amended): the pull in the counterexample world carries
the full 600-unit budget. -/
theorem waitForOllama_pull_timeout_full_witness : (600 : Nat) = 600 :=
  waitForOllama_pull_timeout_full ollamaW9 600 600
    (by rw [waitForOllama_ollamaW9]; decide)

/-- C9 (counterexample to the claim as stated): a run in which the probe and
listing phases consume 11 time units before the pull; the pull request is
issued with the full 600-unit timeout, and no pull request carries the
remaining budget `600 - 11`. -/
theorem waitForOllama_pull_timeout_not_remaining :
    elapsedAtPull ollamaW9 600 = 11 ∧
    Event.pullRequest 600 ∈ (waitForOllama ollamaW9 600).2 ∧
    Event.pullRequest (600 - 11) ∉ (waitForOllama ollamaW9 600).2 := by
  refine ⟨?_, ?_, ?_⟩
  · unfold elapsedAtPull
    rw [probeLoop_ollamaW9]
    rfl
  · rw [waitForOllama_ollamaW9]
    decide
  · rw [waitForOllama_ollamaW9]
    decide

end LlmWebLocal
